import Mathlib

set_option autoImplicit false

/-!
Verification development for the Antygravity backend core:
the privacy-scoring function (`core/services/privacy_scoring.py`) and
the network-device reconciliation and trust/block logic (`core/views.py`).
Python strings are modelled as `String`, integers as `Nat`/`Int`,
timestamps as `Nat`, the device table as a `List Device`.
-/

namespace Antygravity

/-- Python `str.upper` (all strings involved are ASCII). -/
def pyUpper (s : String) : String := ⟨s.data.map Char.toUpper⟩

/-- Python `str.lower` (all strings involved are ASCII). -/
def pyLower (s : String) : String := ⟨s.data.map Char.toLower⟩

/-- Python `str.replace` on character lists, fuel-recursive; every use in the
source has a non-empty pattern, so the fuel `s.length` is enough. -/
def replaceAux : Nat → List Char → List Char → List Char → List Char
  | 0, s, _, _ => s
  | _ + 1, [], _, _ => []
  | fuel + 1, c :: rest, pat, rep =>
    if pat.isPrefixOf (c :: rest) then
      rep ++ replaceAux fuel ((c :: rest).drop pat.length) pat rep
    else
      c :: replaceAux fuel rest pat rep

/-- Python `s.replace(pat, rep)`. -/
def replaceStr (s pat rep : String) : String :=
  ⟨replaceAux s.data.length s.data pat.data rep.data⟩

/-- Python `str.title` (a character starts a word when the previous character
is not alphabetic; ASCII only). -/
def pyTitle (s : String) : String :=
  ⟨(s.data.foldl (fun (acc : List Char × Bool) c =>
      (acc.1 ++ [if c.isAlpha then (if acc.2 then c.toLower else c.toUpper) else c],
       c.isAlpha)) ([], false)).1⟩

/-- `True` iff `pat` occurs as a contiguous substring of `s`. -/
def containsSubstr (s pat : String) : Bool :=
  s.data.tails.any (fun t => pat.data.isPrefixOf t)

/-- The `DANGEROUS_PERMISSIONS` table of `privacy_scoring.py`. -/
def DANGEROUS_PERMISSIONS : List (String × Nat) := [
  ("android.permission.ACCESS_FINE_LOCATION", 15),
  ("android.permission.ACCESS_COARSE_LOCATION", 10),
  ("android.permission.ACCESS_BACKGROUND_LOCATION", 20),
  ("android.permission.CAMERA", 15),
  ("android.permission.RECORD_AUDIO", 15),
  ("android.permission.READ_CONTACTS", 12),
  ("android.permission.WRITE_CONTACTS", 15),
  ("android.permission.READ_CALENDAR", 8),
  ("android.permission.WRITE_CALENDAR", 10),
  ("android.permission.READ_PHONE_STATE", 10),
  ("android.permission.CALL_PHONE", 12),
  ("android.permission.READ_CALL_LOG", 15),
  ("android.permission.READ_SMS", 15),
  ("android.permission.SEND_SMS", 18),
  ("android.permission.RECEIVE_SMS", 15),
  ("android.permission.READ_EXTERNAL_STORAGE", 8),
  ("android.permission.WRITE_EXTERNAL_STORAGE", 10),
  ("android.permission.MANAGE_EXTERNAL_STORAGE", 15),
  ("android.permission.BODY_SENSORS", 12),
  ("android.permission.ACTIVITY_RECOGNITION", 8),
  ("android.permission.READ_MEDIA_IMAGES", 8),
  ("android.permission.READ_MEDIA_VIDEO", 8),
  ("android.permission.READ_MEDIA_AUDIO", 5),
  ("android.permission.POST_NOTIFICATIONS", 3),
  ("android.permission.BLUETOOTH_CONNECT", 5),
  ("android.permission.NEARBY_WIFI_DEVICES", 8)]

/-- The `NETWORK_USAGE_PENALTIES` table of `privacy_scoring.py`. -/
def NETWORK_USAGE_PENALTIES : List (String × Nat) :=
  [("LOW", 0), ("MEDIUM", 5), ("HIGH", 15)]

/-- The `CATEGORY_ADJUSTMENTS` table of `privacy_scoring.py`:
category key ↦ (expected permission hints, base penalty). -/
def CATEGORY_ADJUSTMENTS : List (String × (List String × Int)) := [
  ("social", (["CAMERA", "CONTACTS"], 5)),
  ("communication", (["CONTACTS", "MICROPHONE"], 0)),
  ("navigation", (["LOCATION"], 0)),
  ("photography", (["CAMERA", "STORAGE"], 0)),
  ("health_fitness", (["BODY_SENSORS", "ACTIVITY"], 0)),
  ("finance", ([], -5)),
  ("games", ([], 5)),
  ("productivity", ([], 0)),
  ("entertainment", ([], 3)),
  ("shopping", ([], 0)),
  ("education", ([], 0)),
  ("utilities", ([], 0))]

/-- `_simplify_permission_name` of `privacy_scoring.py`. -/
def simplifyPermissionName (permission : String) : String :=
  pyTitle (replaceStr (replaceStr permission "android.permission." "") "_" " ")

/-- One iteration of the permission loop of `calculate_privacy_score`
(lines 99–107): accumulate the raw penalty and the high-risk and medium-risk
name lists. -/
def classifyStep (acc : Nat × List String × List String) (perm : String) :
    Nat × List String × List String :=
  match DANGEROUS_PERMISSIONS.lookup perm with
  | some penalty =>
      (acc.1 + penalty,
       if 15 ≤ penalty then acc.2.1 ++ [simplifyPermissionName perm] else acc.2.1,
       if 15 ≤ penalty then acc.2.2
       else if 8 ≤ penalty then acc.2.2 ++ [simplifyPermissionName perm]
       else acc.2.2)
  | none => acc

/-- The whole permission loop of `calculate_privacy_score`: returns
(raw permission penalty, high-risk names, medium-risk names). -/
def classifyPermissions (permissions : List String) : Nat × List String × List String :=
  permissions.foldl classifyStep (0, [], [])

/-- Network penalty (line 115): the level is upper-cased, unknown levels
default to 5. -/
def networkPenaltyOf (network_usage_level : String) : Nat :=
  (NETWORK_USAGE_PENALTIES.lookup (pyUpper network_usage_level)).getD 5

/-- Category normalisation (line 120): lower-case, then replace spaces and
ampersands by underscores. -/
def normalizeCategory (category : String) : String :=
  replaceStr (replaceStr (pyLower category) " " "_") "&" "_"

/-- Category penalty (lines 121–122): unknown categories give 0. -/
def categoryPenaltyOf (category : String) : Int :=
  ((CATEGORY_ADJUSTMENTS.lookup (normalizeCategory category)).getD ([], 0)).2

/-- Action thresholds (lines 157–163). -/
def suggestedAction (final_score : Int) : String :=
  if 70 ≤ final_score then "KEEP"
  else if 40 ≤ final_score then "REVIEW"
  else "CONSIDER_UNINSTALL"

/-- Shallow embedding of `calculate_privacy_score`; returns
`(final_score, explanation, suggested_action)`.  The `deductions` list of the
source is omitted: it is written to but never read by any output. -/
def calculate_privacy_score (permissions : List String) (category : String)
    (network_usage_level : String) : Int × String × String :=
  let base_score : Int := 100
  let cls := classifyPermissions permissions
  let permission_penalty := min cls.1 60
  let high_risk_permissions := cls.2.1
  let medium_risk_permissions := cls.2.2
  let network_penalty := networkPenaltyOf network_usage_level
  let category_penalty := categoryPenaltyOf category
  let total_penalty : Int :=
    (permission_penalty : Int) + (network_penalty : Int) + category_penalty
  let final_score : Int := max 0 (min 100 (base_score - total_penalty))
  let concerns : List String :=
    (if high_risk_permissions ≠ [] then
      ["High-risk permissions: " ++ String.intercalate ", " high_risk_permissions]
     else [])
    ++ (if medium_risk_permissions ≠ [] then
      ["Sensitive permissions: " ++
        String.intercalate ", " (medium_risk_permissions.take 5)]
     else [])
    ++ (if pyUpper network_usage_level = "HIGH" then
      ["High network activity may indicate data sharing"]
     else [])
  let positives : List String :=
    (if category_penalty < 0 then
      ["Trusted category (" ++ category ++ "): +" ++
        toString category_penalty.natAbs ++ " points"]
     else [])
    ++ (if 80 ≤ final_score then ["Low privacy risk overall"]
        else if permissions = [] then ["No dangerous permissions requested"]
        else [])
  let explanation_parts : List String :=
    (if concerns ≠ [] then ["Concerns: " ++ String.intercalate "; " concerns]
     else [])
    ++ (if positives ≠ [] then ["Positives: " ++ String.intercalate "; " positives]
     else [])
  let explanation_parts :=
    if explanation_parts = [] then ["This app has moderate privacy characteristics."]
    else explanation_parts
  let explanation := String.intercalate " | " explanation_parts
  (final_score, explanation, suggestedAction final_score)

/-- A `NetworkDevice` row (`core/models.py`): owners are opaque ids,
timestamps are naturals. -/
structure Device where
  owner : Nat
  name : String
  ip_address : String
  mac_address : String
  device_type : String
  is_trusted : Bool
  is_blocked : Bool
  first_seen_at : Nat
  last_seen_at : Nat
deriving DecidableEq, Repr

/-- One raw device record of a scan payload.  `mac_address`, `ip_address` and
`name` are read with `.get(key, '')` in the source, so absence coincides with
the empty string; `device_type` is read with default `'UNKNOWN'` on create but
checked for truthiness on update, so absence must stay distinct. -/
structure Observation where
  mac_address : String := ""
  ip_address : String := ""
  name : String := ""
  device_type : Option String := none
deriving DecidableEq, Repr

/-- The `get_or_create` filter of `NetworkScanLogViewSet.create`
(lines 200–225): match by `(owner, mac_address)` when the observation has a
mac, else by `(owner, ip_address, mac_address='')`. -/
def keyMatch (owner : Nat) (o : Observation) (d : Device) : Bool :=
  if o.mac_address ≠ "" then
    d.owner == owner && d.mac_address == o.mac_address
  else
    d.owner == owner && d.ip_address == o.ip_address && d.mac_address == ""

/-- The `defaults` of the two `get_or_create` calls: a fresh device row.
`is_trusted`/`is_blocked` take the model defaults `False`. -/
def createDevice (owner : Nat) (o : Observation) (now : Nat) : Device :=
  { owner := owner
    name := o.name
    ip_address :=
      if o.mac_address ≠ "" then (if o.ip_address = "" then "0.0.0.0" else o.ip_address)
      else o.ip_address
    mac_address := o.mac_address
    device_type := o.device_type.getD "UNKNOWN"
    is_trusted := false
    is_blocked := false
    first_seen_at := now
    last_seen_at := now }

/-- The update branch (lines 227–234): keep prior `ip_address`/`name` when the
observation's value is empty, always advance `last_seen_at`, update
`device_type` only when present and non-empty. -/
def applyUpdate (o : Observation) (now : Nat) (d : Device) : Device :=
  { d with
    ip_address := if o.ip_address = "" then d.ip_address else o.ip_address
    name := if o.name = "" then d.name else o.name
    last_seen_at := now
    device_type :=
      match o.device_type with
      | some dt => if dt = "" then d.device_type else dt
      | none => d.device_type }

/-- Replace the first element satisfying `p` by its image under `f`
(a row update against the unique matching row). -/
def updateFirst (p : Device → Bool) (f : Device → Device) : List Device → List Device
  | [] => []
  | d :: ds => if p d then f d :: ds else d :: updateFirst p f ds

/-- Reconciliation of a single observation against the device table
(`NetworkScanLogViewSet.create`, lines 193–234): skip if both identifiers are
empty, else upsert by the identity key. -/
def reconcileObs (owner : Nat) (now : Nat) (registry : List Device)
    (o : Observation) : List Device :=
  if o.mac_address = "" ∧ o.ip_address = "" then registry
  else
    match registry.find? (keyMatch owner o) with
    | some _ => updateFirst (keyMatch owner o) (applyUpdate o now) registry
    | none => registry ++ [createDevice owner o now]

/-- Reconciliation of a whole scan batch, in input order. -/
def reconcileScan (owner : Nat) (now : Nat) (registry : List Device)
    (observations : List Observation) : List Device :=
  observations.foldl (reconcileObs owner now) registry

/-- The three explicit trust/block actions of `NetworkDeviceViewSet`
(lines 132–157). -/
inductive TrustOp where
  | markTrusted
  | markBlocked
  | unmark
deriving DecidableEq, Repr

/-- Effect of one trust/block action on a device row. -/
def applyTrustOp : TrustOp → Device → Device
  | .markTrusted, d => { d with is_trusted := true, is_blocked := false }
  | .markBlocked, d => { d with is_blocked := true, is_trusted := false }
  | .unmark, d => { d with is_trusted := false, is_blocked := false }

/-- Effect of a sequence of trust/block actions, applied in order. -/
def applyTrustOps (ops : List TrustOp) (d : Device) : Device :=
  ops.foldl (fun d op => applyTrustOp op d) d

/-- Spec-side weight of a permission: its table weight, `0` when unknown. -/
def weightOf (p : String) : Nat := (DANGEROUS_PERMISSIONS.lookup p).getD 0

/-- Spec-side raw permission penalty: the sum of the weights. -/
def sumWeights (P : List String) : Nat := (P.map weightOf).sum

/-- Spec-side high-risk selector: a known permission of weight `≥ 15`. -/
def highOf (p : String) : Option String :=
  match DANGEROUS_PERMISSIONS.lookup p with
  | some w => if 15 ≤ w then some (simplifyPermissionName p) else none
  | none => none

/-- Medium-risk selector exactly as the code branches: known, not high-risk,
weight `≥ 8`. -/
def mediumOf (p : String) : Option String :=
  match DANGEROUS_PERMISSIONS.lookup p with
  | some w => if ¬ 15 ≤ w ∧ 8 ≤ w then some (simplifyPermissionName p) else none
  | none => none

/-- Medium-risk selector as the spec words it: known permission of weight in
`[8, 14)`. -/
def mediumOfSpec (p : String) : Option String :=
  match DANGEROUS_PERMISSIONS.lookup p with
  | some w => if 8 ≤ w ∧ w < 14 then some (simplifyPermissionName p) else none
  | none => none

/-! ### Lemmas about the permission loop -/

/-- A value produced by the permission table is never 14 (the table holds only
the weights 3, 5, 8, 10, 12, 15, 18, 20). -/
theorem lookup_weight_mem {p : String} {w : Nat}
    (h : DANGEROUS_PERMISSIONS.lookup p = some w) : w < 14 ∨ 15 ≤ w := by
  obtain ⟨l₁, l₂, heq, -⟩ := List.lookup_eq_some_iff.1 h
  have hmem : w ∈ DANGEROUS_PERMISSIONS.map Prod.snd := by
    rw [heq]; simp
  have hall : ∀ x ∈ DANGEROUS_PERMISSIONS.map Prod.snd, x < 14 ∨ 15 ≤ x := by decide
  exact hall w hmem

/-- Closed form of the permission loop: raw penalty is the sum of the weights,
and the two risk lists collect the qualifying known permissions in order. -/
theorem foldl_classifyStep (P : List String) (acc : Nat × List String × List String) :
    P.foldl classifyStep acc =
      (acc.1 + sumWeights P,
       acc.2.1 ++ P.filterMap highOf,
       acc.2.2 ++ P.filterMap mediumOf) := by
  induction P generalizing acc with
  | nil => simp [sumWeights]
  | cons p rest ih =>
    rw [List.foldl_cons, ih]
    cases h : DANGEROUS_PERMISSIONS.lookup p with
    | none =>
      simp [classifyStep, h, sumWeights, weightOf, highOf, mediumOf]
    | some w =>
      simp only [classifyStep, h, sumWeights, weightOf, highOf, mediumOf,
        List.map_cons, List.sum_cons, List.filterMap_cons, Option.getD_some]
      split_ifs with h15 h8 <;>
        simp_all [List.append_assoc, Nat.add_assoc]

/-- The three projections of `classifyPermissions` in closed form. -/
theorem classifyPermissions_spec (P : List String) :
    classifyPermissions P = (sumWeights P, P.filterMap highOf, P.filterMap mediumOf) := by
  rw [classifyPermissions, foldl_classifyStep]
  simp

/-! ### Scoring claims -/

/-- Claim C5: the capped permission penalty computed by
`calculate_privacy_score` equals `min 60 (sum of the table weights)` with
unknown permissions contributing 0, and it is invariant under permuting the
permission list. -/
theorem permission_penalty_min_sum_perm_invariant :
    (∀ P : List String, min (classifyPermissions P).1 60 = min 60 (sumWeights P))
  ∧ ∀ P Q : List String, P.Perm Q →
      min (classifyPermissions P).1 60 = min (classifyPermissions Q).1 60 := by
  have h : ∀ P : List String, (classifyPermissions P).1 = sumWeights P := by
    intro P; rw [classifyPermissions_spec]
  constructor
  · intro P; rw [h, Nat.min_comm]
  · intro P Q hpq
    rw [h, h, sumWeights, sumWeights, (hpq.map weightOf).sum_eq]

/-- Witness for C5: a concrete two-element permission list and its swap. -/
theorem permission_penalty_min_sum_perm_invariant_witness :
    min (classifyPermissions
      ["android.permission.CAMERA", "android.permission.READ_SMS"]).1 60
      = min 60 (sumWeights
          ["android.permission.CAMERA", "android.permission.READ_SMS"])
  ∧ min (classifyPermissions
      ["android.permission.CAMERA", "android.permission.READ_SMS"]).1 60
      = min (classifyPermissions
          ["android.permission.READ_SMS", "android.permission.CAMERA"]).1 60 :=
  ⟨permission_penalty_min_sum_perm_invariant.1 _,
   permission_penalty_min_sum_perm_invariant.2 _ _ (List.Perm.swap _ _ _)⟩

/-- Claim C6: for every input the returned score lies in `[0, 100]`. -/
theorem privacy_score_bounds (P : List String) (c n : String) :
    0 ≤ (calculate_privacy_score P c n).1 ∧ (calculate_privacy_score P c n).1 ≤ 100 := by
  constructor
  · exact le_max_left _ _
  · exact max_le (by norm_num) (min_le_left _ _)

/-- Claim C4: the suggested action is exactly determined by the final score
(`KEEP` iff `≥ 70`, `REVIEW` iff in `[40, 70)`, `CONSIDER_UNINSTALL` iff
`< 40`), and the boundary scores 70, 69, 40, 39 map to `KEEP`, `REVIEW`,
`REVIEW`, `CONSIDER_UNINSTALL`. -/
theorem action_determined_by_score (P : List String) (c n : String) :
    ((calculate_privacy_score P c n).2.2 = "KEEP" ↔
      70 ≤ (calculate_privacy_score P c n).1)
  ∧ ((calculate_privacy_score P c n).2.2 = "REVIEW" ↔
      40 ≤ (calculate_privacy_score P c n).1 ∧ (calculate_privacy_score P c n).1 < 70)
  ∧ ((calculate_privacy_score P c n).2.2 = "CONSIDER_UNINSTALL" ↔
      (calculate_privacy_score P c n).1 < 40)
  ∧ suggestedAction 70 = "KEEP" ∧ suggestedAction 69 = "REVIEW"
  ∧ suggestedAction 40 = "REVIEW" ∧ suggestedAction 39 = "CONSIDER_UNINSTALL" := by
  have h : (calculate_privacy_score P c n).2.2
      = suggestedAction (calculate_privacy_score P c n).1 := rfl
  refine ⟨?_, ?_, ?_, by decide, by decide, by decide, by decide⟩ <;> rw [h] <;>
    · generalize (calculate_privacy_score P c n).1 = s
      unfold suggestedAction
      split_ifs with h1 h2 <;> simp_all <;> omega

/-- Claim C7: the high-risk list holds exactly the known permissions of
weight `≥ 15`, the medium-risk list exactly those of weight in `[8, 14)`
(all in input order), and the numeric score depends only on the capped
penalty sum, not on the two lists. -/
theorem risk_classification_spec (P : List String) :
    (classifyPermissions P).2.1 = P.filterMap highOf
  ∧ (classifyPermissions P).2.2 = P.filterMap mediumOfSpec
  ∧ ∀ c n, (calculate_privacy_score P c n).1
      = max 0 (min 100 (100 -
          (((min (classifyPermissions P).1 60 : Nat) : Int)
            + ((networkPenaltyOf n : Nat) : Int) + categoryPenaltyOf c))) := by
  refine ⟨by rw [classifyPermissions_spec], ?_, fun c n => rfl⟩
  rw [classifyPermissions_spec]
  refine List.filterMap_congr fun p hp => ?_
  unfold mediumOf mediumOfSpec
  cases h : DANGEROUS_PERMISSIONS.lookup p with
  | none => rfl
  | some w =>
    have hne : (¬ 15 ≤ w ∧ 8 ≤ w) ↔ (8 ≤ w ∧ w < 14) := by
      rcases lookup_weight_mem h with h14 | h15 <;> omega
    show (if ¬ 15 ≤ w ∧ 8 ≤ w then some (simplifyPermissionName p) else none)
        = (if 8 ≤ w ∧ w < 14 then some (simplifyPermissionName p) else none)
    exact if_congr hne rfl rfl

/-- Claim C9: permission lookup is exact and case-sensitive (a case variant of
a table entry contributes nothing and is classified nowhere), while the
network level is upper-cased before lookup and so matches case-insensitively. -/
theorem permission_lookup_case_sensitive :
    DANGEROUS_PERMISSIONS.lookup "android.permission.camera" = none
  ∧ DANGEROUS_PERMISSIONS.lookup "android.permission.CAMERA" = some 15
  ∧ pyUpper "android.permission.camera" = pyUpper "android.permission.CAMERA"
  ∧ classifyPermissions ["android.permission.camera"] = (0, [], [])
  ∧ (∀ acc p, DANGEROUS_PERMISSIONS.lookup p = none → classifyStep acc p = acc)
  ∧ (∀ s t, pyUpper s = pyUpper t → networkPenaltyOf s = networkPenaltyOf t)
  ∧ networkPenaltyOf "high" = 15 ∧ networkPenaltyOf "HIGH" = 15 := by
  refine ⟨by decide, by decide, by decide, by decide, ?_, ?_, by decide, by decide⟩
  · intro acc p h; simp [classifyStep, h]
  · intro s t h; simp [networkPenaltyOf, h]

/-- Witness for C9: a concrete unknown permission and a concrete mixed-case
network level. -/
theorem permission_lookup_case_sensitive_witness :
    classifyStep (0, [], []) "not.a.permission" = (0, [], [])
  ∧ networkPenaltyOf "hIgH" = networkPenaltyOf "HIGH" :=
  ⟨permission_lookup_case_sensitive.2.2.2.2.1 _ _ (by decide),
   permission_lookup_case_sensitive.2.2.2.2.2.1 _ _ (by decide)⟩

/-- Counterexample to claim C1: on `([], "games", "HIGH")` the score is 80 and
the action KEEP, but the explanation does not contain
"No dangerous permissions requested". -/
theorem games_high_example_counterexample :
    ¬ ((calculate_privacy_score [] "games" "HIGH").1 = 80
      ∧ (calculate_privacy_score [] "games" "HIGH").2.2 = "KEEP"
      ∧ containsSubstr (calculate_privacy_score [] "games" "HIGH").2.1
          "No dangerous permissions requested" = true) := by
  decide

/-- Claim C1 amended: on `([], "games", "HIGH")` the score is 80 and the
action KEEP, and because the score is `≥ 80` the explanation contains the
low-risk note "Low privacy risk overall" instead of the empty-permission
note. -/
theorem games_high_example :
    (calculate_privacy_score [] "games" "HIGH").1 = 80
  ∧ (calculate_privacy_score [] "games" "HIGH").2.2 = "KEEP"
  ∧ (calculate_privacy_score [] "games" "HIGH").2.1
      = "Concerns: High network activity may indicate data sharing | Positives: Low privacy risk overall"
  ∧ containsSubstr (calculate_privacy_score [] "games" "HIGH").2.1
      "Low privacy risk overall" = true := by
  exact ⟨rfl, rfl, rfl, by decide⟩

/-! ### Lemmas about reconciliation -/

/-- `updateFirst` never changes the number of rows. -/
theorem updateFirst_length (p : Device → Bool) (f : Device → Device) (l : List Device) :
    (updateFirst p f l).length = l.length := by
  induction l with
  | nil => rfl
  | cons d ds ih => unfold updateFirst; split <;> simp [ih]

/-- `updateFirst` on a list whose first match is `d` rewrites exactly `d`. -/
theorem updateFirst_middle (p : Device → Bool) (f : Device → Device)
    (pre post : List Device) (d : Device)
    (hpre : ∀ x ∈ pre, p x = false) (hd : p d = true) :
    updateFirst p f (pre ++ d :: post) = pre ++ f d :: post := by
  induction pre with
  | nil => simp [updateFirst, hd]
  | cons x xs ih =>
    have hx : p x = false := hpre x (by simp)
    simp only [List.cons_append, updateFirst, hx]
    simp [ih fun y hy => hpre y (by simp [hy])]

/-- `find?` on a list whose first match is `d` returns `d`. -/
theorem find?_middle (p : Device → Bool) (pre post : List Device) (d : Device)
    (hpre : ∀ x ∈ pre, p x = false) (hd : p d = true) :
    (pre ++ d :: post).find? p = some d := by
  rw [List.find?_append]
  have h1 : pre.find? p = none := List.find?_eq_none.2 fun x hx => by simp [hpre x hx]
  rw [h1, List.find?_cons_of_pos _ hd]
  rfl

/-- The update branch preserves the identity key of the matched row. -/
theorem keyMatch_applyUpdate (owner : Nat) (o : Observation) (now : Nat) (d : Device)
    (h : keyMatch owner o d = true) : keyMatch owner o (applyUpdate o now d) = true := by
  unfold keyMatch at h ⊢
  by_cases hmac : o.mac_address ≠ ""
  · rw [if_pos hmac] at h ⊢
    exact h
  · rw [if_neg hmac] at h ⊢
    simp only [Bool.and_eq_true, beq_iff_eq] at h ⊢
    obtain ⟨⟨how, hip⟩, hm⟩ := h
    refine ⟨⟨how, ?_⟩, hm⟩
    show (if o.ip_address = "" then d.ip_address else o.ip_address) = o.ip_address
    by_cases hoe : o.ip_address = ""
    · rw [if_pos hoe]; exact hip
    · rw [if_neg hoe]

/-! ### Reconciliation claims -/

/-- Claim C2: reconciling an ip-only observation twice against a registry
with no row for the key `(owner, ip)` creates exactly one row; the second
pass finds the freshly created row (mac stored empty, ip stored as observed)
and updates it in place. -/
theorem ip_only_reconcile_no_duplicate (owner t1 t2 : Nat) (registry : List Device)
    (o : Observation) (hmac : o.mac_address = "") (hip : o.ip_address ≠ "")
    (hreg : ∀ d ∈ registry,
      ¬ (d.owner = owner ∧ d.ip_address = o.ip_address ∧ d.mac_address = "")) :
    reconcileObs owner t1 registry o = registry ++ [createDevice owner o t1]
  ∧ (createDevice owner o t1).mac_address = ""
  ∧ (createDevice owner o t1).ip_address = o.ip_address
  ∧ reconcileObs owner t2 (reconcileObs owner t1 registry o) o
      = registry ++ [applyUpdate o t2 (createDevice owner o t1)]
  ∧ (reconcileObs owner t1 registry o).length = registry.length + 1
  ∧ (reconcileObs owner t2 (reconcileObs owner t1 registry o) o).length
      = registry.length + 1 := by
  have hkey : ¬ (o.mac_address = "" ∧ o.ip_address = "") := fun ⟨_, h⟩ => hip h
  have hregb : ∀ d ∈ registry, keyMatch owner o d = false := by
    intro d hd
    have hmem := hreg d hd
    unfold keyMatch
    rw [if_neg (by simp [hmac])]
    rw [Bool.eq_false_iff]
    intro hcontra
    simp only [Bool.and_eq_true, beq_iff_eq] at hcontra
    exact hmem ⟨hcontra.1.1, hcontra.1.2, hcontra.2⟩
  have hfind : registry.find? (keyMatch owner o) = none :=
    List.find?_eq_none.2 fun x hx => by simp [hregb x hx]
  have h1 : reconcileObs owner t1 registry o = registry ++ [createDevice owner o t1] := by
    unfold reconcileObs; rw [if_neg hkey, hfind]
  have hcmac : (createDevice owner o t1).mac_address = "" := by
    simp [createDevice, hmac]
  have hcip : (createDevice owner o t1).ip_address = o.ip_address := by
    simp [createDevice, hmac]
  have hc : keyMatch owner o (createDevice owner o t1) = true := by
    unfold keyMatch
    rw [if_neg (by simp [hmac])]
    simp [createDevice, hmac]
  have h2 : reconcileObs owner t2 (registry ++ [createDevice owner o t1]) o
      = registry ++ [applyUpdate o t2 (createDevice owner o t1)] := by
    unfold reconcileObs
    rw [if_neg hkey, find?_middle (keyMatch owner o) registry [] _ hregb hc]
    exact updateFirst_middle (keyMatch owner o) _ registry [] _ hregb hc
  refine ⟨h1, hcmac, hcip, ?_, ?_, ?_⟩
  · rw [h1, h2]
  · rw [h1]; simp
  · rw [h1, h2]; simp

/-- Witness for C2: a concrete ip-only observation against the empty registry. -/
theorem ip_only_reconcile_no_duplicate_witness :
    reconcileObs 7 1 [] { mac_address := "", ip_address := "10.0.0.2" }
      = ([] : List Device)
          ++ [createDevice 7 { mac_address := "", ip_address := "10.0.0.2" } 1]
  ∧ (reconcileObs 7 2 (reconcileObs 7 1 [] { mac_address := "", ip_address := "10.0.0.2" })
      { mac_address := "", ip_address := "10.0.0.2" }).length
      = ([] : List Device).length + 1 :=
  ⟨(ip_only_reconcile_no_duplicate 7 1 2 []
      { mac_address := "", ip_address := "10.0.0.2" } rfl (by decide) (by simp)).1,
   (ip_only_reconcile_no_duplicate 7 1 2 []
      { mac_address := "", ip_address := "10.0.0.2" } rfl (by decide) (by simp)).2.2.2.2.2⟩

/-- Claim C3: when an observation matches an existing row, reconciliation
advances `last_seen_at` to the observation time and leaves `first_seen_at`,
`is_trusted` and `is_blocked` untouched; two passes with `t1 ≤ t2` advance
`last_seen_at` monotonically. -/
theorem reconcile_update_frame (owner t1 t2 : Nat) (o : Observation)
    (pre post : List Device) (d : Device)
    (hkey : ¬ (o.mac_address = "" ∧ o.ip_address = ""))
    (hpre : ∀ x ∈ pre, keyMatch owner o x = false)
    (hd : keyMatch owner o d = true) (h12 : t1 ≤ t2) :
    reconcileObs owner t1 (pre ++ d :: post) o = pre ++ applyUpdate o t1 d :: post
  ∧ reconcileObs owner t2 (pre ++ applyUpdate o t1 d :: post) o
      = pre ++ applyUpdate o t2 (applyUpdate o t1 d) :: post
  ∧ (applyUpdate o t1 d).last_seen_at = t1
  ∧ (applyUpdate o t2 (applyUpdate o t1 d)).last_seen_at = t2
  ∧ (applyUpdate o t1 d).last_seen_at ≤ (applyUpdate o t2 (applyUpdate o t1 d)).last_seen_at
  ∧ (applyUpdate o t1 d).first_seen_at = d.first_seen_at
  ∧ (applyUpdate o t2 (applyUpdate o t1 d)).first_seen_at = d.first_seen_at
  ∧ (applyUpdate o t1 d).is_trusted = d.is_trusted
  ∧ (applyUpdate o t1 d).is_blocked = d.is_blocked
  ∧ (applyUpdate o t2 (applyUpdate o t1 d)).is_trusted = d.is_trusted
  ∧ (applyUpdate o t2 (applyUpdate o t1 d)).is_blocked = d.is_blocked := by
  have hd' := keyMatch_applyUpdate owner o t1 d hd
  refine ⟨?_, ?_, rfl, rfl, h12, rfl, rfl, rfl, rfl, rfl, rfl⟩
  · unfold reconcileObs
    rw [if_neg hkey, find?_middle (keyMatch owner o) pre post d hpre hd]
    exact updateFirst_middle (keyMatch owner o) _ pre post d hpre hd
  · unfold reconcileObs
    rw [if_neg hkey, find?_middle (keyMatch owner o) pre post _ hpre hd']
    exact updateFirst_middle (keyMatch owner o) _ pre post _ hpre hd'

/-- Witness for C3: one concrete device matched by mac, observed at times
10 and 20. -/
theorem reconcile_update_frame_witness :
    reconcileObs 0 10
        [{ owner := 0, name := "", ip_address := "9.9.9.9", mac_address := "AA:BB",
           device_type := "UNKNOWN", is_trusted := true, is_blocked := false,
           first_seen_at := 5, last_seen_at := 5 }]
        { mac_address := "AA:BB", ip_address := "1.2.3.4", name := "phone",
          device_type := some "PHONE" }
      = [] ++ applyUpdate
          { mac_address := "AA:BB", ip_address := "1.2.3.4", name := "phone",
            device_type := some "PHONE" } 10
          { owner := 0, name := "", ip_address := "9.9.9.9", mac_address := "AA:BB",
            device_type := "UNKNOWN", is_trusted := true, is_blocked := false,
            first_seen_at := 5, last_seen_at := 5 } :: []
  ∧ (applyUpdate
      { mac_address := "AA:BB", ip_address := "1.2.3.4", name := "phone",
        device_type := some "PHONE" } 10
      { owner := 0, name := "", ip_address := "9.9.9.9", mac_address := "AA:BB",
        device_type := "UNKNOWN", is_trusted := true, is_blocked := false,
        first_seen_at := 5, last_seen_at := 5 }).is_trusted
      = ({ owner := 0, name := "", ip_address := "9.9.9.9", mac_address := "AA:BB",
           device_type := "UNKNOWN", is_trusted := true, is_blocked := false,
           first_seen_at := 5, last_seen_at := 5 } : Device).is_trusted :=
  ⟨(reconcile_update_frame 0 10 20 _ [] [] _ (by decide) (by simp) (by decide)
      (by decide)).1,
   (reconcile_update_frame 0 10 20 _ [] [] _ (by decide) (by simp) (by decide)
      (by decide)).2.2.2.2.2.2.2.1⟩

/-- Claim C10: matching by mac ignores the ip column: an observation with a
mac creates a second row even when an ip-keyed row with the very same ip
already exists, leaving two rows with one ip. -/
theorem mac_match_ignores_ip (owner t1 t2 : Nat) (o1 o2 : Observation)
    (h1mac : o1.mac_address = "") (h1ip : o1.ip_address ≠ "")
    (h2mac : o2.mac_address ≠ "") (hsame : o2.ip_address = o1.ip_address) :
    reconcileObs owner t2 (reconcileObs owner t1 [] o1) o2
      = [createDevice owner o1 t1, createDevice owner o2 t2]
  ∧ (createDevice owner o1 t1).ip_address = (createDevice owner o2 t2).ip_address
  ∧ (createDevice owner o1 t1).mac_address ≠ (createDevice owner o2 t2).mac_address
  ∧ (reconcileObs owner t2 (reconcileObs owner t1 [] o1) o2).length = 2 := by
  have hkey1 : ¬ (o1.mac_address = "" ∧ o1.ip_address = "") := fun ⟨_, h⟩ => h1ip h
  have hkey2 : ¬ (o2.mac_address = "" ∧ o2.ip_address = "") := fun ⟨h, _⟩ => h2mac h
  have h1 : reconcileObs owner t1 [] o1 = [createDevice owner o1 t1] := by
    unfold reconcileObs; rw [if_neg hkey1]; rfl
  have hnomatch : keyMatch owner o2 (createDevice owner o1 t1) = false := by
    unfold keyMatch
    rw [if_pos h2mac, Bool.eq_false_iff]
    intro hcontra
    simp only [Bool.and_eq_true, beq_iff_eq] at hcontra
    have : (createDevice owner o1 t1).mac_address = "" := by
      simp [createDevice, h1mac]
    rw [this] at hcontra
    exact h2mac hcontra.2.symm
  have h2 : reconcileObs owner t2 [createDevice owner o1 t1] o2
      = [createDevice owner o1 t1, createDevice owner o2 t2] := by
    unfold reconcileObs
    rw [if_neg hkey2]
    have hfind : List.find? (keyMatch owner o2) [createDevice owner o1 t1] = none := by
      rw [List.find?_cons_of_neg _ (by simp [hnomatch])]
      rfl
    rw [hfind]
    rfl
  refine ⟨by rw [h1, h2], ?_, ?_, by rw [h1, h2]; rfl⟩
  · have hip2 : ¬ o2.ip_address = "" := by rw [hsame]; exact h1ip
    have hc1 : (createDevice owner o1 t1).ip_address = o1.ip_address := by
      show (if o1.mac_address ≠ "" then
              (if o1.ip_address = "" then "0.0.0.0" else o1.ip_address)
            else o1.ip_address) = o1.ip_address
      rw [if_neg (by simp [h1mac])]
    have hc2 : (createDevice owner o2 t2).ip_address = o2.ip_address := by
      show (if o2.mac_address ≠ "" then
              (if o2.ip_address = "" then "0.0.0.0" else o2.ip_address)
            else o2.ip_address) = o2.ip_address
      rw [if_pos h2mac, if_neg hip2]
    rw [hc1, hc2, hsame]
  · have hm1 : (createDevice owner o1 t1).mac_address = "" := by
      simp [createDevice, h1mac]
    have hm2 : (createDevice owner o2 t2).mac_address = o2.mac_address := rfl
    rw [hm1, hm2]
    exact Ne.symm h2mac

/-- Witness for C10: concrete ip-only then mac-plus-same-ip observations. -/
theorem mac_match_ignores_ip_witness :
    reconcileObs 3 2 (reconcileObs 3 1 [] { mac_address := "", ip_address := "10.0.0.9" })
        { mac_address := "CC:DD", ip_address := "10.0.0.9" }
      = [createDevice 3 { mac_address := "", ip_address := "10.0.0.9" } 1,
         createDevice 3 { mac_address := "CC:DD", ip_address := "10.0.0.9" } 2]
  ∧ (createDevice 3 { mac_address := "", ip_address := "10.0.0.9" } 1).ip_address
      = (createDevice 3 { mac_address := "CC:DD", ip_address := "10.0.0.9" } 2).ip_address :=
  ⟨(mac_match_ignores_ip 3 1 2 { mac_address := "", ip_address := "10.0.0.9" }
      { mac_address := "CC:DD", ip_address := "10.0.0.9" }
      rfl (by decide) (by decide) rfl).1,
   (mac_match_ignores_ip 3 1 2 { mac_address := "", ip_address := "10.0.0.9" }
      { mac_address := "CC:DD", ip_address := "10.0.0.9" }
      rfl (by decide) (by decide) rfl).2.1⟩

/-! ### Trust/block state machine -/

/-- Claim C8: `is_trusted` and `is_blocked` are never both set after any
non-empty sequence of trust/block actions; `markTrusted` then `markBlocked`
yields blocked-not-trusted; each action clears the opposite flag; acting on a
device already in the target state is the identity. -/
theorem trust_block_state_machine :
    (∀ (d : Device) (ops : List TrustOp), ops ≠ [] →
      ¬ ((applyTrustOps ops d).is_trusted = true
        ∧ (applyTrustOps ops d).is_blocked = true))
  ∧ (∀ d : Device,
      (applyTrustOp .markBlocked (applyTrustOp .markTrusted d)).is_trusted = false
    ∧ (applyTrustOp .markBlocked (applyTrustOp .markTrusted d)).is_blocked = true)
  ∧ (∀ d : Device, (applyTrustOp .markTrusted d).is_blocked = false
    ∧ (applyTrustOp .markBlocked d).is_trusted = false
    ∧ (applyTrustOp .unmark d).is_trusted = false
    ∧ (applyTrustOp .unmark d).is_blocked = false)
  ∧ (∀ d : Device, d.is_trusted = true → d.is_blocked = false →
      applyTrustOp .markTrusted d = d)
  ∧ (∀ d : Device, d.is_blocked = true → d.is_trusted = false →
      applyTrustOp .markBlocked d = d)
  ∧ (∀ d : Device, d.is_trusted = false → d.is_blocked = false →
      applyTrustOp .unmark d = d) := by
  have hop : ∀ (op : TrustOp) (d : Device),
      ¬ ((applyTrustOp op d).is_trusted = true ∧ (applyTrustOp op d).is_blocked = true) := by
    intro op d; cases op <;> simp [applyTrustOp]
  have hseq : ∀ (ops : List TrustOp) (d : Device),
      ¬ (d.is_trusted = true ∧ d.is_blocked = true) →
      ¬ ((applyTrustOps ops d).is_trusted = true
        ∧ (applyTrustOps ops d).is_blocked = true) := by
    intro ops
    induction ops with
    | nil => intro d h; exact h
    | cons op rest ih => intro d _; exact ih (applyTrustOp op d) (hop op d)
  refine ⟨?_, ?_, ?_, ?_, ?_, ?_⟩
  · intro d ops hne
    cases ops with
    | nil => exact absurd rfl hne
    | cons op rest => exact hseq rest (applyTrustOp op d) (hop op d)
  · intro d; exact ⟨rfl, rfl⟩
  · intro d; exact ⟨rfl, rfl, rfl, rfl⟩
  · intro d ht hb; cases d; simp_all [applyTrustOp]
  · intro d hb ht; cases d; simp_all [applyTrustOp]
  · intro d ht hb; cases d; simp_all [applyTrustOp]

/-- Witness for C8: a concrete device through `markTrusted; markBlocked`, and
a no-op `markTrusted` on an already-trusted device. -/
theorem trust_block_state_machine_witness :
    ¬ ((applyTrustOps [TrustOp.markTrusted, TrustOp.markBlocked]
        { owner := 0, name := "", ip_address := "1.1.1.1", mac_address := "AA",
          device_type := "UNKNOWN", is_trusted := false, is_blocked := false,
          first_seen_at := 0, last_seen_at := 0 }).is_trusted = true
      ∧ (applyTrustOps [TrustOp.markTrusted, TrustOp.markBlocked]
          { owner := 0, name := "", ip_address := "1.1.1.1", mac_address := "AA",
            device_type := "UNKNOWN", is_trusted := false, is_blocked := false,
            first_seen_at := 0, last_seen_at := 0 }).is_blocked = true)
  ∧ applyTrustOp .markTrusted
      { owner := 0, name := "", ip_address := "1.1.1.1", mac_address := "AA",
        device_type := "UNKNOWN", is_trusted := true, is_blocked := false,
        first_seen_at := 0, last_seen_at := 0 }
      = { owner := 0, name := "", ip_address := "1.1.1.1", mac_address := "AA",
          device_type := "UNKNOWN", is_trusted := true, is_blocked := false,
          first_seen_at := 0, last_seen_at := 0 } :=
  ⟨trust_block_state_machine.1 _ _ (by decide),
   trust_block_state_machine.2.2.2.1 _ rfl rfl⟩

end Antygravity
